import Mathlib

/-!
Verification of the financial and energy projection engine of the wind-and-solar
carbon/financial calculator (src/utils/calculations.ts), shallowly embedded in
Lean 4.  JavaScript numbers are modelled by the rationals; where the behaviour
of IEEE division at zero is itself the property under study, a small JsVal type
with explicit Infinity/NaN values is used instead.
-/

namespace WindSolar

/-- One generation asset, mirroring EnergySourceConfig in src/types.ts
(the string-typed field (type) is irrelevant to every computation and omitted). -/
structure EnergySourceConfig where
  enabled : Bool
  capacity : ℚ
  efficiency : ℚ
  costPerKw : ℚ
  dailyProductionHours : ℚ
  degradationRate : ℚ
  specificOperationalCosts : ℚ
deriving DecidableEq

/-- SystemParameters from src/types.ts restricted to the fields the calculation
engine reads (location and weatherData are UI-only and omitted). -/
structure SystemParameters where
  energySources : List EnergySourceConfig
  gridEmissionFactor : ℚ
  operationalLifetime : ℕ
  totalInstallationCost : ℚ
  totalOperationalCosts : ℚ
deriving DecidableEq

/-- FinancialParameters from src/types.ts. -/
structure FinancialParameters where
  electricityPrice : ℚ
  electricityPriceIncrease : ℚ
  financingYears : ℕ
  interestRate : ℚ
  inflationRate : ℚ
  discountRate : ℚ
deriving DecidableEq

/-- One row of the cash-flow schedule (YearlyCashFlow in src/types.ts). -/
structure YearlyCashFlow where
  year : ℕ
  cashFlow : ℚ
  cumulativeCashFlow : ℚ
deriving DecidableEq

/-- EnergyByYear from src/types.ts. -/
structure EnergyByYear where
  year : ℕ
  energy : ℚ
deriving DecidableEq

/-- EnergyGeneration from src/types.ts. -/
structure EnergyGeneration where
  daily : ℚ
  monthly : ℚ
  yearly : ℚ
  lifetime : List EnergyByYear
deriving DecidableEq

/-- CarbonByYear from src/types.ts. -/
structure CarbonByYear where
  year : ℕ
  reduction : ℚ
deriving DecidableEq

/-- CarbonReduction from src/types.ts. -/
structure CarbonReduction where
  daily : ℚ
  yearly : ℚ
  lifetime : ℚ
  financialBenefit : ℚ
  yearlyReduction : List CarbonByYear
deriving DecidableEq

/-- Result record of calculateSystemParameters (calculations.ts lines 11-14). -/
structure CalculatedSystem where
  calculatedCapacity : ℚ
  calculatedSystemSize : ℚ
deriving DecidableEq

/-- calculateSystemParameters (calculations.ts lines 4-47): the goal-based
reverse solver, averaging four independently inverted system-size estimates. -/
def calculateSystemParameters (dailyEnergy monthlyEnergy yearlyEnergy yearlyCarbon
    gridEmissionFactor dailyProductionHours : ℚ) : CalculatedSystem :=
  let systemSizeFromDaily := dailyEnergy / dailyProductionHours
  let systemSizeFromMonthly := monthlyEnergy / (dailyProductionHours * 30)
  let systemSizeFromYearly := yearlyEnergy / (dailyProductionHours * 365)
  let yearlyEnergyFromCarbon := yearlyCarbon / gridEmissionFactor
  let systemSizeFromCarbon := yearlyEnergyFromCarbon / (dailyProductionHours * 365)
  let calculatedSystemSize :=
    (systemSizeFromDaily + systemSizeFromMonthly + systemSizeFromYearly + systemSizeFromCarbon) / 4
  { calculatedCapacity := calculatedSystemSize, calculatedSystemSize := calculatedSystemSize }

/-- calculateNPV (calculations.ts lines 50-54): reduce over the cash-flow list,
discounting each flow by its index. -/
def calculateNPV (cashFlows : List ℚ) (discountRate : ℚ) : ℚ :=
  cashFlows.enum.foldl (fun npv p => npv + p.2 / (1 + discountRate / 100) ^ p.1) 0

/-- The while loop of calculateIRR (calculations.ts lines 59-66), with explicit
fuel.  The source loop increments irr by 0.1 while NPV stays positive and
irr stays below 100, so it runs at most 1000 times; fuel 1001 is never
exhausted when started at irr = 0. -/
def irrLoop (cashFlows : List ℚ) : ℕ → ℚ → ℚ
  | 0, irr => irr
  | fuel + 1, irr =>
      if calculateNPV cashFlows irr > 0 ∧ irr < 100 then
        irrLoop cashFlows fuel (irr + 1 / 10)
      else irr

/-- calculateIRR (calculations.ts lines 57-69): incremental search from 0 in
steps of 0.1 until NPV is no longer positive or irr reaches 100. -/
def calculateIRR (cashFlows : List ℚ) : ℚ :=
  irrLoop cashFlows 1001 0

/-- calculatePaybackPeriod (calculations.ts lines 72-85).  findIndex returns -1
when no entry is nonnegative; the guard (positiveIndex less-or-equal 0) maps both
that case and index 0 to the return value 0. -/
def calculatePaybackPeriod (cumulativeCashFlows : List ℚ) : ℚ :=
  match cumulativeCashFlows.findIdx? (fun v => decide (v ≥ 0)) with
  | none => 0
  | some i =>
      if i = 0 then 0
      else
        let previousValue := cumulativeCashFlows.getD (i - 1) 0
        let currentValue := cumulativeCashFlows.getD i 0
        ((i : ℚ) - 1) + |previousValue| / (currentValue - previousValue)

/-- calculateROI (calculations.ts lines 88-90), over the rational model
(division by zero is 0 here; see the JsVal variant for the IEEE behaviour). -/
def calculateROI (totalInvestment totalReturns : ℚ) : ℚ :=
  ((totalReturns - totalInvestment) / totalInvestment) * 100

/-- calculateLCOE (calculations.ts lines 93-95), over the rational model. -/
def calculateLCOE (totalCosts totalEnergy : ℚ) : ℚ :=
  totalCosts / totalEnergy

/-- A JavaScript number that is either a finite value (a rational), one of the
two infinities, or NaN.  Used to model the IEEE-754 results the source
produces on degenerate divisions. -/
inductive JsVal where
  | num (q : ℚ)
  | posInf
  | negInf
  | nan
deriving DecidableEq

/-- IEEE-754 / JavaScript division of two finite numbers: a nonzero value
divided by (positive) zero gives a signed infinity, zero by zero gives NaN. -/
def jsDivNum (a b : ℚ) : JsVal :=
  if b = 0 then
    if a = 0 then JsVal.nan else if a > 0 then JsVal.posInf else JsVal.negInf
  else JsVal.num (a / b)

/-- Multiplication of a JavaScript number by the finite positive constant 100,
as used by calculateROI. -/
def jsMul100 : JsVal → JsVal
  | JsVal.num q => JsVal.num (q * 100)
  | JsVal.posInf => JsVal.posInf
  | JsVal.negInf => JsVal.negInf
  | JsVal.nan => JsVal.nan

/-- calculateLCOE under JavaScript number semantics: the source body is exactly
the division totalCosts / totalEnergy, with no guard and no error path. -/
def calculateLCOE_jsSem (totalCosts totalEnergy : ℚ) : JsVal :=
  jsDivNum totalCosts totalEnergy

/-- calculateROI under JavaScript number semantics: the source body is exactly
((totalReturns - totalInvestment) / totalInvestment) * 100, with no guard and
no error path. -/
def calculateROI_jsSem (totalInvestment totalReturns : ℚ) : JsVal :=
  jsMul100 (jsDivNum (totalReturns - totalInvestment) totalInvestment)

/-- monthlyInterestRate (calculations.ts line 108). -/
def monthlyInterestRate (fin : FinancialParameters) : ℚ :=
  fin.interestRate / 100 / 12

/-- numberOfPayments (calculations.ts line 109). -/
def numberOfPayments (fin : FinancialParameters) : ℕ :=
  fin.financingYears * 12

/-- The divisor of the monthlyPayment computation (calculations.ts lines
112-117): the annuity-formula denominator when interestRate is positive, and
the payment count for the straight-line branch otherwise. -/
def monthlyPaymentDenominator (fin : FinancialParameters) : ℚ :=
  if fin.interestRate > 0 then
    (1 + monthlyInterestRate fin) ^ numberOfPayments fin - 1
  else (numberOfPayments fin : ℚ)

/-- monthlyPayment (calculations.ts lines 111-117), over the rational model. -/
def monthlyPayment (sys : SystemParameters) (fin : FinancialParameters) : ℚ :=
  let loanAmount := sys.totalInstallationCost
  if fin.interestRate > 0 then
    loanAmount * (monthlyInterestRate fin * (1 + monthlyInterestRate fin) ^ numberOfPayments fin) /
      ((1 + monthlyInterestRate fin) ^ numberOfPayments fin - 1)
  else loanAmount / (numberOfPayments fin : ℚ)

/-- yearlyLoanPayment (calculations.ts line 119). -/
def yearlyLoanPayment (sys : SystemParameters) (fin : FinancialParameters) : ℚ :=
  monthlyPayment sys fin * 12

/-- Revenue of a given year (calculations.ts lines 131-135): energy of that
year times the escalated electricity price. -/
def yearRevenue (fin : FinancialParameters) (yearlyEnergy : List ℚ) (year : ℕ) : ℚ :=
  yearlyEnergy.getD (year - 1) 0 *
    (fin.electricityPrice * (1 + fin.electricityPriceIncrease / 100) ^ (year - 1))

/-- Net cash flow of a given year at least 1 (calculations.ts lines 138-142):
revenue minus operational costs minus the loan payment while financing runs. -/
def yearCashFlow (sys : SystemParameters) (fin : FinancialParameters)
    (yearlyEnergy : List ℚ) (year : ℕ) : ℚ :=
  yearRevenue fin yearlyEnergy year - sys.totalOperationalCosts -
    (if year ≤ fin.financingYears then yearlyLoanPayment sys fin else 0)

/-- The for loop of calculateYearlyCashFlows (calculations.ts lines 129-152):
one row per remaining year, threading the running cumulative total. -/
def buildRows (sys : SystemParameters) (fin : FinancialParameters)
    (yearlyEnergy : List ℚ) : ℕ → ℕ → ℚ → List YearlyCashFlow
  | 0, _, _ => []
  | remaining + 1, year, cumulative =>
      let cf := yearCashFlow sys fin yearlyEnergy year
      { year := year, cashFlow := cf, cumulativeCashFlow := cumulative + cf } ::
        buildRows sys fin yearlyEnergy remaining (year + 1) (cumulative + cf)

/-- calculateYearlyCashFlows (calculations.ts lines 98-155): the year-0 row
holds the initial outlay, then one row per operational year. -/
def calculateYearlyCashFlows (sys : SystemParameters) (fin : FinancialParameters)
    (yearlyEnergy : List ℚ) : List YearlyCashFlow :=
  { year := 0, cashFlow := -sys.totalInstallationCost,
    cumulativeCashFlow := -sys.totalInstallationCost } ::
    buildRows sys fin yearlyEnergy sys.operationalLifetime 1 (-sys.totalInstallationCost)

/-- Per-source degraded annual production (calculations.ts lines 170-171 and
234-235): base production capacity * dailyProductionHours * 365 scaled by
(1 - degradationRate/100) to the given exponent. -/
def sourceAnnualProduction (src : EnergySourceConfig) (exponent : ℕ) : ℚ :=
  src.capacity * src.dailyProductionHours * 365 * (1 - src.degradationRate / 100) ^ exponent

/-- Annual production summed over the enabled sources at a given degradation
exponent (the filter/forEach accumulation at calculations.ts lines 167-173
and 231-237). -/
def enabledAnnualProduction (sys : SystemParameters) (exponent : ℕ) : ℚ :=
  ((sys.energySources.filter (fun s => s.enabled)).map
    (fun s => sourceAnnualProduction s exponent)).sum

/-- The yearlyEnergy array built inside calculateFinancialMetrics
(calculations.ts lines 162-176): the loop runs year = 0 .. lifetime-1 and uses
the loop index itself as the degradation exponent. -/
def yearlyEnergySeries (sys : SystemParameters) : List ℚ :=
  (List.range sys.operationalLifetime).map (fun year => enabledAnnualProduction sys year)

/-- FinancialMetrics from src/types.ts. -/
structure FinancialMetrics where
  npv : ℚ
  irr : ℚ
  paybackPeriod : ℚ
  roi : ℚ
  lcoe : ℚ
  yearlyCashFlows : List YearlyCashFlow
deriving DecidableEq

/-- calculateFinancialMetrics (calculations.ts lines 157-210). -/
def calculateFinancialMetrics (sys : SystemParameters) (fin : FinancialParameters) :
    FinancialMetrics :=
  let yearlyEnergy := yearlyEnergySeries sys
  let totalEnergyProduction := yearlyEnergy.sum
  let yearlyCashFlows := calculateYearlyCashFlows sys fin yearlyEnergy
  let cashFlowValues := yearlyCashFlows.map (fun cf => cf.cashFlow)
  let cumulativeCashFlows := yearlyCashFlows.map (fun cf => cf.cumulativeCashFlow)
  let totalCosts := sys.totalInstallationCost +
    sys.totalOperationalCosts * (sys.operationalLifetime : ℚ)
  let totalReturns := (cashFlowValues.filter (fun cf => decide (cf > 0))).sum
  { npv := calculateNPV cashFlowValues fin.discountRate
    irr := calculateIRR cashFlowValues
    paybackPeriod := calculatePaybackPeriod cumulativeCashFlows
    roi := calculateROI sys.totalInstallationCost totalReturns
    lcoe := calculateLCOE totalCosts totalEnergyProduction
    yearlyCashFlows := yearlyCashFlows }

/-- calculateEnergyGeneration (calculations.ts lines 212-251): daily, monthly
and yearly snapshots plus the lifetime series, whose loop runs
year = 1 .. lifetime with degradation exponent year - 1. -/
def calculateEnergyGeneration (sys : SystemParameters) : EnergyGeneration :=
  let dailyProduction := ((sys.energySources.filter (fun s => s.enabled)).map
    (fun s => s.capacity * s.dailyProductionHours)).sum
  { daily := dailyProduction
    monthly := dailyProduction * 30
    yearly := dailyProduction * 365
    lifetime := (List.range' 1 sys.operationalLifetime).map
      (fun year => { year := year, energy := enabledAnnualProduction sys (year - 1) }) }

/-- calculateCarbonReduction (calculations.ts lines 253-282). -/
def calculateCarbonReduction (sys : SystemParameters) (energyGeneration : EnergyGeneration) :
    CarbonReduction :=
  let yearlyReductions := energyGeneration.lifetime.map
    (fun yearData =>
      ({ year := yearData.year, reduction := yearData.energy * sys.gridEmissionFactor } :
        CarbonByYear))
  let lifetimeReduction := (yearlyReductions.map (fun y => y.reduction)).sum
  { daily := energyGeneration.daily * sys.gridEmissionFactor
    yearly := energyGeneration.yearly * sys.gridEmissionFactor
    lifetime := lifetimeReduction
    financialBenefit := lifetimeReduction / 1000 * 190
    yearlyReduction := yearlyReductions }

/-- Modelled from the spec: derivative of calculateNPV with respect to the
rate, required by the Newton-Raphson IRR the specification describes.  The
source has no such function; this definition exists only to compare the
specified algorithm against calculateIRR. -/
def npvDerivative (cashFlows : List ℚ) (r : ℚ) : ℚ :=
  cashFlows.enum.foldl
    (fun acc p => acc + (-(p.1 : ℚ)) * p.2 / 100 / (1 + r / 100) ^ (p.1 + 1)) 0

/-- Modelled from the spec: Newton-Raphson iteration for the IRR, up to 100
steps, stopping early when the derivative magnitude is below 1e-10 or the
successive-iterate delta is below 1e-6. -/
def newtonIRRLoop (cashFlows : List ℚ) : ℕ → ℚ → ℚ
  | 0, r => r
  | fuel + 1, r =>
      let d := npvDerivative cashFlows r
      if |d| < 1 / 10 ^ 10 then r
      else
        let rNext := r - calculateNPV cashFlows r / d
        if |rNext - r| < 1 / 10 ^ 6 then rNext
        else newtonIRRLoop cashFlows fuel rNext

/-- Modelled from the spec: the Newton-Raphson IRR solver of the
specification, started at 0 and clamped to the interval from -100 to 100. -/
def specIRR_newton (cashFlows : List ℚ) : ℚ :=
  max (-100) (min 100 (newtonIRRLoop cashFlows 100 0))

/-- A concrete enabled solar-like source, used as witness input. -/
def exSource : EnergySourceConfig :=
  { enabled := true, capacity := 10, efficiency := 20, costPerKw := 15000,
    dailyProductionHours := 5, degradationRate := 1, specificOperationalCosts := 200 }

/-- A concrete disabled source with large nonzero fields, used as witness input. -/
def disabledSource : EnergySourceConfig :=
  { enabled := false, capacity := 999, efficiency := 50, costPerKw := 1,
    dailyProductionHours := 24, degradationRate := 50, specificOperationalCosts := 7 }

/-- A concrete system configuration, used as witness input. -/
def exSys : SystemParameters :=
  { energySources := [exSource], gridEmissionFactor := 1, operationalLifetime := 2,
    totalInstallationCost := 100, totalOperationalCosts := 10 }

/-- A concrete financial configuration without financing, used as witness input. -/
def exFin0 : FinancialParameters :=
  { electricityPrice := 2, electricityPriceIncrease := 0, financingYears := 0,
    interestRate := 0, inflationRate := 0, discountRate := 8 }

/-- Claim C1, counterexample: the schedule whose cumulative cash flows are
-10 and -5 never reaches a nonnegative value, yet calculatePaybackPeriod
returns 0 rather than the claimed sentinel (the horizon length, here 1, or
positive infinity). -/
theorem C1_counterexample :
    (([-10, -5] : List ℚ).all (fun v => decide (v < 0)) = true) ∧
      calculatePaybackPeriod [-10, -5] = 0 := by
  constructor
  · decide
  · decide

/-- Claim C1 as amended: when every cumulative cash flow is negative (the
investment never recovers), calculatePaybackPeriod returns the sentinel 0,
not the horizon length and not positive infinity. -/
theorem C1_payback_zero_when_never_recovers (l : List ℚ) (h : ∀ v ∈ l, v < 0) :
    calculatePaybackPeriod l = 0 := by
  have hnone : l.findIdx? (fun v => decide (v ≥ 0)) = none := by
    rw [List.findIdx?_eq_none_iff]
    intro x hx
    simpa using not_le.mpr (h x hx)
  simp [calculatePaybackPeriod, hnone]

/-- Witness for the amended claim C1 at the schedule -10, -5. -/
theorem C1_witness : calculatePaybackPeriod [-10, -5] = 0 :=
  C1_payback_zero_when_never_recovers [-10, -5] (by decide)

/-- Claim C2, counterexample: calculateLCOE with zero total energy returns
positive infinity under JavaScript number semantics, calculateROI with zero
installation cost likewise, and calculateNPV accepts the negative discount
rate -50 and returns a plain number; no typed error exists anywhere on these
paths. -/
theorem C2_counterexample :
    calculateLCOE_jsSem 100 0 = JsVal.posInf ∧
      calculateROI_jsSem 0 100 = JsVal.posInf ∧
      calculateNPV [-100, 210] (-50) = 320 := by
  refine ⟨by decide, ?_, ?_⟩
  · norm_num [calculateROI_jsSem, jsDivNum, jsMul100]
  · norm_num [calculateNPV, List.enum, List.enumFrom]

/-- Claim C2 as amended: the metrics functions have no degenerate-input
guards.  calculateLCOE with zero energy and positive costs evaluates to
positive infinity, calculateROI with zero investment and positive returns
evaluates to positive infinity, and calculateNPV applies no discount-rate
check, returning the plain discounted sum even at the negative rate -50. -/
theorem C2_no_error_guards (c : ℚ) (hc : 0 < c) :
    calculateLCOE_jsSem c 0 = JsVal.posInf ∧
      calculateROI_jsSem 0 c = JsVal.posInf ∧
      calculateNPV [-100, 210] (-50) = 320 := by
  refine ⟨?_, ?_, ?_⟩
  · simp [calculateLCOE_jsSem, jsDivNum, hc, hc.ne']
  · simp [calculateROI_jsSem, jsDivNum, jsMul100, hc, hc.ne']
  · norm_num [calculateNPV, List.enum, List.enumFrom]

/-- Witness for the amended claim C2 at total costs and returns of 50. -/
theorem C2_witness :
    calculateLCOE_jsSem 50 0 = JsVal.posInf ∧
      calculateROI_jsSem 0 50 = JsVal.posInf ∧
      calculateNPV [-100, 210] (-50) = 320 :=
  C2_no_error_guards 50 (by norm_num)

/-- Claim C8: the roi field of calculateFinancialMetrics is exactly the sum
of the strictly positive cash flows of the schedule, minus the installation
cost, divided by the installation cost, times 100. -/
theorem C8_roi_formula (sys : SystemParameters) (fin : FinancialParameters)
    (h : sys.totalInstallationCost ≠ 0) :
    (calculateFinancialMetrics sys fin).roi =
      ((((calculateFinancialMetrics sys fin).yearlyCashFlows.map
          (fun r => r.cashFlow)).filter (fun cf => decide (cf > 0))).sum -
        sys.totalInstallationCost) / sys.totalInstallationCost * 100 := by
  simp only [calculateFinancialMetrics, calculateROI]

/-- Witness for claim C8 at the concrete example configuration. -/
theorem C8_witness :
    (calculateFinancialMetrics exSys exFin0).roi =
      ((((calculateFinancialMetrics exSys exFin0).yearlyCashFlows.map
          (fun r => r.cashFlow)).filter (fun cf => decide (cf > 0))).sum -
        exSys.totalInstallationCost) / exSys.totalInstallationCost * 100 :=
  C8_roi_formula exSys exFin0 (by decide)

/-- Claim C10: the energy series computed inside calculateFinancialMetrics
(loop from 0 with exponent equal to the index) and the lifetime series of
calculateEnergyGeneration (loop from 1 with exponent one less than the year)
are element-wise equal. -/
theorem C10_series_consistency (sys : SystemParameters) :
    (calculateEnergyGeneration sys).lifetime.map (fun e => e.energy) =
      yearlyEnergySeries sys := by
  simp only [calculateEnergyGeneration, yearlyEnergySeries, List.range'_eq_map_range,
    List.map_map]
  apply List.map_congr_left
  intro a _
  simp

/-- The NPV of the single cash flow 100 is 100 at every rate, since the
year-0 term is never discounted. -/
theorem calculateNPV_single100 (r : ℚ) : calculateNPV [100] r = 100 := by
  simp [calculateNPV, List.enum, List.enumFrom]

/-- On the cash-flow list containing only 100, the incremental loop walks all
the way to 100 because the NPV never turns nonpositive. -/
theorem irrLoop_single100 :
    ∀ fuel k : ℕ, k ≤ 1000 → 1000 - k < fuel →
      irrLoop [100] fuel ((k : ℚ) / 10) = 100 := by
  intro fuel
  induction fuel with
  | zero => intro k hk hf; omega
  | succ fuel ih =>
      intro k hk hf
      rcases eq_or_lt_of_le hk with h1000 | hlt
      · subst h1000
        rw [irrLoop, if_neg]
        · norm_num
        · rintro ⟨-, habs⟩
          norm_num at habs
      · rw [irrLoop, if_pos]
        · have hstep : (k : ℚ) / 10 + 1 / 10 = ((k + 1 : ℕ) : ℚ) / 10 := by
            push_cast
            ring
          rw [hstep]
          exact ih (k + 1) (by omega) (by omega)
        · refine ⟨by rw [calculateNPV_single100]; norm_num, ?_⟩
          rw [div_lt_iff (by norm_num : (0:ℚ) < 10)]
          exact_mod_cast by exact_mod_cast Nat.cast_lt.mpr hlt |>.trans_le (by norm_num)

/-- Claim C3, counterexample: on the cash-flow list containing only the
single positive flow 100 the source loop returns 100, while the
Newton-Raphson solver specified by the claim stops immediately (the NPV
derivative at 0 is 0, below the 1e-10 threshold) and returns 0.  The two
algorithms therefore disagree, so calculateIRR is not the specified
Newton-Raphson iteration. -/
theorem C3_counterexample :
    calculateIRR [100] = 100 ∧ specIRR_newton [100] = 0 := by
  constructor
  · have h := irrLoop_single100 1001 0 (by omega) (by omega)
    simpa [calculateIRR] using h
  · have hd : npvDerivative [100] 0 = 0 := by
      simp [npvDerivative, List.enum, List.enumFrom]
    have hloop : newtonIRRLoop [100] 100 0 = 0 := by
      show newtonIRRLoop [100] (99 + 1) 0 = 0
      rw [newtonIRRLoop, hd]
      norm_num
    rw [specIRR_newton, hloop]
    norm_num

/-- The incremental loop never decreases the rate. -/
theorem irrLoop_ge (cashFlows : List ℚ) :
    ∀ fuel irr, irr ≤ irrLoop cashFlows fuel irr := by
  intro fuel
  induction fuel with
  | zero => intro irr; simp [irrLoop]
  | succ fuel ih =>
      intro irr
      rw [irrLoop]
      split
      · exact le_trans (by norm_num) (ih (irr + 1 / 10))
      · exact le_refl irr

/-- Started on a tenth-integer rate at most 100, the incremental loop never
exceeds 100. -/
theorem irrLoop_le_100 (cashFlows : List ℚ) :
    ∀ fuel (k : ℕ), k ≤ 1000 → irrLoop cashFlows fuel ((k : ℚ) / 10) ≤ 100 := by
  intro fuel
  induction fuel with
  | zero =>
      intro k hk
      rw [irrLoop]
      rw [div_le_iff (by norm_num : (0:ℚ) < 10)]
      exact_mod_cast Nat.cast_le.mpr hk |>.trans (by norm_num)
  | succ fuel ih =>
      intro k hk
      rw [irrLoop]
      split
      · rename_i hcond
        have hklt : k < 1000 := by
          by_contra hge
          have : k = 1000 := by omega
          subst this
          have := hcond.2
          norm_num at this
        have hstep : (k : ℚ) / 10 + 1 / 10 = ((k + 1 : ℕ) : ℚ) / 10 := by
          push_cast
          ring
        rw [hstep]
        exact ih (k + 1) (by omega)
      · rw [div_le_iff (by norm_num : (0:ℚ) < 10)]
        exact_mod_cast Nat.cast_le.mpr hk |>.trans (by norm_num)

/-- With enough fuel the incremental loop only stops when its continuation
condition has failed: at the returned rate the NPV is nonpositive or the rate
has reached 100. -/
theorem irrLoop_exit (cashFlows : List ℚ) :
    ∀ (fuel : ℕ) (irr : ℚ), 10 * (100 - irr) < (fuel : ℚ) →
      calculateNPV cashFlows (irrLoop cashFlows fuel irr) ≤ 0 ∨
        100 ≤ irrLoop cashFlows fuel irr := by
  intro fuel
  induction fuel with
  | zero =>
      intro irr hf
      rw [irrLoop]
      right
      push_cast at hf
      linarith
  | succ fuel ih =>
      intro irr hf
      rw [irrLoop]
      split
      · apply ih
        push_cast at hf ⊢
        linarith
      · rename_i hcond
        rcases not_and_or.mp hcond with hnpv | hirr
        · exact Or.inl (not_lt.mp hnpv)
        · exact Or.inr (not_lt.mp hirr)

/-- Claim C3 as amended: calculateIRR is an incremental search, not
Newton-Raphson.  Starting at 0 it adds 0.1 while the NPV stays positive and
the rate stays below 100; consequently its result always lies in the
interval from 0 to 100, and at the result the NPV is nonpositive or the rate
has reached 100.  No derivative, no 1e-6 delta test and no clamping to -100
are involved. -/
theorem C3_incremental_search (cashFlows : List ℚ) :
    0 ≤ calculateIRR cashFlows ∧ calculateIRR cashFlows ≤ 100 ∧
      (calculateNPV cashFlows (calculateIRR cashFlows) ≤ 0 ∨
        100 ≤ calculateIRR cashFlows) := by
  refine ⟨?_, ?_, ?_⟩
  · simpa [calculateIRR] using irrLoop_ge cashFlows 1001 0
  · have h := irrLoop_le_100 cashFlows 1001 0 (by omega)
    simpa [calculateIRR] using h
  · have h := irrLoop_exit cashFlows 1001 0 (by norm_num)
    simpa [calculateIRR] using h

/-- The loop of the cash-flow builder emits exactly one row per remaining
year. -/
theorem buildRows_length (sys : SystemParameters) (fin : FinancialParameters)
    (energy : List ℚ) :
    ∀ rem year cum, (buildRows sys fin energy rem year cum).length = rem := by
  intro rem
  induction rem with
  | zero => intro year cum; rfl
  | succ rem ih =>
      intro year cum
      simp [buildRows, ih]

/-- Row n of the cash-flow builder loop carries year start + n and the net
cash flow of that year. -/
theorem buildRows_getD_fields (sys : SystemParameters) (fin : FinancialParameters)
    (energy : List ℚ) :
    ∀ rem year cum n, n < rem →
      ((buildRows sys fin energy rem year cum).getD n ⟨0, 0, 0⟩).year = year + n ∧
        ((buildRows sys fin energy rem year cum).getD n ⟨0, 0, 0⟩).cashFlow =
          yearCashFlow sys fin energy (year + n) := by
  intro rem
  induction rem with
  | zero => intro year cum n hn; omega
  | succ rem ih =>
      intro year cum n hn
      cases n with
      | zero => simp [buildRows]
      | succ n =>
          simp only [buildRows, List.getD_cons_succ]
          have h := ih (year + 1) (cum + yearCashFlow sys fin energy year) n (by omega)
          have e : year + 1 + n = year + (n + 1) := by omega
          rw [e] at h
          exact h

/-- Each row of the cash-flow builder loop carries the running total: the
start value plus the sum of the cash flows of the rows up to it. -/
theorem buildRows_getD_cumulative (sys : SystemParameters) (fin : FinancialParameters)
    (energy : List ℚ) :
    ∀ rem year cum n, n < rem →
      ((buildRows sys fin energy rem year cum).getD n ⟨0, 0, 0⟩).cumulativeCashFlow =
        cum + (((buildRows sys fin energy rem year cum).take (n + 1)).map
          (fun r => r.cashFlow)).sum := by
  intro rem
  induction rem with
  | zero => intro year cum n hn; omega
  | succ rem ih =>
      intro year cum n hn
      cases n with
      | zero => simp [buildRows]
      | succ n =>
          simp only [buildRows, List.getD_cons_succ, List.take_succ_cons, List.map_cons,
            List.sum_cons]
          rw [ih (year + 1) (cum + yearCashFlow sys fin energy year) n (by omega)]
          ring

/-- Claim C4: in every schedule produced by calculateYearlyCashFlows, the
cumulative cash flow at row n equals the sum of the cash flows of rows 0
through n, and the year-0 row's cash flow is exactly the negated total
installation cost. -/
theorem C4_cashflow_conservation (sys : SystemParameters) (fin : FinancialParameters)
    (energy : List ℚ) (n : ℕ)
    (hn : n < (calculateYearlyCashFlows sys fin energy).length) :
    ((calculateYearlyCashFlows sys fin energy).getD n ⟨0, 0, 0⟩).cumulativeCashFlow =
      (((calculateYearlyCashFlows sys fin energy).take (n + 1)).map
        (fun r => r.cashFlow)).sum ∧
      ((calculateYearlyCashFlows sys fin energy).getD 0 ⟨0, 0, 0⟩).cashFlow =
        -sys.totalInstallationCost := by
  refine ⟨?_, by simp [calculateYearlyCashFlows]⟩
  cases n with
  | zero => simp [calculateYearlyCashFlows]
  | succ n =>
      have hlen : n < sys.operationalLifetime := by
        have hl := buildRows_length sys fin energy sys.operationalLifetime 1
          (-sys.totalInstallationCost)
        simp only [calculateYearlyCashFlows, List.length_cons, hl] at hn
        omega
      simp only [calculateYearlyCashFlows, List.getD_cons_succ, List.take_succ_cons,
        List.map_cons, List.sum_cons]
      rw [buildRows_getD_cumulative sys fin energy sys.operationalLifetime 1
        (-sys.totalInstallationCost) n hlen]

/-- Witness for claim C4 at the concrete example configuration, row 1. -/
theorem C4_witness :
    ((calculateYearlyCashFlows exSys exFin0 [0, 0]).getD 1 ⟨0, 0, 0⟩).cumulativeCashFlow =
      (((calculateYearlyCashFlows exSys exFin0 [0, 0]).take 2).map
        (fun r => r.cashFlow)).sum ∧
      ((calculateYearlyCashFlows exSys exFin0 [0, 0]).getD 0 ⟨0, 0, 0⟩).cashFlow =
        -exSys.totalInstallationCost :=
  C4_cashflow_conservation exSys exFin0 [0, 0] 1
    (by simp [calculateYearlyCashFlows, buildRows_length, exSys])

/-- Claim C6, counterexample: with financingYears = 0 and a positive interest
rate the annuity formula is still evaluated, and its divisor is 0 (the
source computes Math.pow(1 + r, 0) - 1, which is 0, so the division blows up
to Infinity in JavaScript rather than being skipped). -/
theorem C6_counterexample :
    ({ electricityPrice := 2, electricityPriceIncrease := 8, financingYears := 0,
        interestRate := 7, inflationRate := 5, discountRate := 8 } :
      FinancialParameters).financingYears = 0 ∧
      monthlyPaymentDenominator
        { electricityPrice := 2, electricityPriceIncrease := 8, financingYears := 0,
          interestRate := 7, inflationRate := 5, discountRate := 8 } = 0 := by
  constructor
  · rfl
  · norm_num [monthlyPaymentDenominator, numberOfPayments]

/-- Claim C6 as amended: with financingYears = 0 no loan payment is ever
charged, so every row with year at least 1 has cash flow equal to revenue
minus operational costs only; however the annuity computation is not skipped
and divides by zero (its result never reaches the schedule). -/
theorem C6_cash_purchase (sys : SystemParameters) (fin : FinancialParameters)
    (energy : List ℚ) (h0 : fin.financingYears = 0) (n : ℕ) (h1 : 1 ≤ n)
    (hn : n < (calculateYearlyCashFlows sys fin energy).length) :
    ((calculateYearlyCashFlows sys fin energy).getD n ⟨0, 0, 0⟩).cashFlow =
      yearRevenue fin energy n - sys.totalOperationalCosts := by
  obtain ⟨m, rfl⟩ : ∃ m, n = m + 1 := ⟨n - 1, by omega⟩
  have hlen : m < sys.operationalLifetime := by
    have hl := buildRows_length sys fin energy sys.operationalLifetime 1
      (-sys.totalInstallationCost)
    simp only [calculateYearlyCashFlows, List.length_cons, hl] at hn
    omega
  simp only [calculateYearlyCashFlows, List.getD_cons_succ]
  rw [(buildRows_getD_fields sys fin energy sys.operationalLifetime 1
    (-sys.totalInstallationCost) m hlen).2]
  rw [yearCashFlow, h0, if_neg (by omega), Nat.add_comm 1 m]
  ring

/-- Witness for the amended claim C6 at the concrete example configuration,
row 1. -/
theorem C6_witness :
    ((calculateYearlyCashFlows exSys exFin0 [0, 0]).getD 1 ⟨0, 0, 0⟩).cashFlow =
      yearRevenue exFin0 [0, 0] 1 - exSys.totalOperationalCosts :=
  C6_cash_purchase exSys exFin0 [0, 0] rfl 1 (by omega)
    (by simp [calculateYearlyCashFlows, buildRows_length, exSys])

/-- An enabled source whose degradation rate exceeds 100 percent, making the
degradation factor negative. -/
def overDegradedSource : EnergySourceConfig :=
  { enabled := true, capacity := 1, efficiency := 20, costPerKw := 1000,
    dailyProductionHours := 5, degradationRate := 200, specificOperationalCosts := 10 }

/-- A system holding only the over-degraded source, with a three-year
lifetime. -/
def overDegradedSys : SystemParameters :=
  { energySources := [overDegradedSource], gridEmissionFactor := 1, operationalLifetime := 3,
    totalInstallationCost := 1000, totalOperationalCosts := 10 }

/-- Claim C5, counterexample: the over-degraded source is enabled, has
degradationRate greater than 0 and a lifetime of at least 2 years, yet its
annual output series from calculateEnergyGeneration is 1825, -1825, 1825:
the output increases from year 2 to year 3, so the series is not strictly
decreasing. -/
theorem C5_counterexample :
    overDegradedSource.enabled = true ∧ 0 < overDegradedSource.degradationRate ∧
      2 ≤ overDegradedSys.operationalLifetime ∧
      ((calculateEnergyGeneration overDegradedSys).lifetime.map (fun e => e.energy)).getD 1 0 <
        ((calculateEnergyGeneration overDegradedSys).lifetime.map (fun e => e.energy)).getD 2 0 := by
  refine ⟨rfl, by norm_num [overDegradedSource], by norm_num [overDegradedSys], ?_⟩
  have hr : List.range' 1 overDegradedSys.operationalLifetime = [1, 2, 3] := rfl
  norm_num [calculateEnergyGeneration, hr, enabledAnnualProduction, sourceAnnualProduction,
    overDegradedSys, overDegradedSource, List.filter]

/-- Claim C5 as amended: for a source with degradation rate strictly between
0 and 100 and positive capacity and daily production hours, the per-source
annual output series of calculateEnergyGeneration is strictly decreasing
year over year. -/
theorem C5_degradation_strict_anti (src : EnergySourceConfig)
    (hd0 : 0 < src.degradationRate) (hd1 : src.degradationRate < 100)
    (hc : 0 < src.capacity) (hh : 0 < src.dailyProductionHours) (y : ℕ) :
    sourceAnnualProduction src (y + 1) < sourceAnnualProduction src y := by
  unfold sourceAnnualProduction
  have hbase : 0 < src.capacity * src.dailyProductionHours * 365 := by positivity
  have hq0 : 0 < 1 - src.degradationRate / 100 := by
    have : src.degradationRate / 100 < 1 := (div_lt_one (by norm_num : (0:ℚ) < 100)).mpr hd1
    linarith
  have hq1 : 1 - src.degradationRate / 100 < 1 := by
    have : 0 < src.degradationRate / 100 := by positivity
    linarith
  exact mul_lt_mul_of_pos_left
    (pow_lt_pow_right_of_lt_one₀ hq0 hq1 (Nat.lt_succ_self y)) hbase

/-- Witness for the amended claim C5 at the concrete example source, between
years 1 and 2. -/
theorem C5_witness : sourceAnnualProduction exSource 1 < sourceAnnualProduction exSource 0 :=
  C5_degradation_strict_anti exSource (by norm_num [exSource]) (by norm_num [exSource])
    (by norm_num [exSource]) (by norm_num [exSource]) 0

/-- Claim C7: a disabled source contributes nothing: removing it from the
source list leaves the daily, monthly and yearly snapshots and the lifetime
series of calculateEnergyGeneration, the energy series used inside
calculateFinancialMetrics, and the derived carbon record all unchanged. -/
theorem C7_disabled_source_exclusion (sys : SystemParameters)
    (l1 l2 : List EnergySourceConfig) (s : EnergySourceConfig)
    (hs : s.enabled = false) (hsrc : sys.energySources = l1 ++ s :: l2) :
    calculateEnergyGeneration sys =
        calculateEnergyGeneration { sys with energySources := l1 ++ l2 } ∧
      yearlyEnergySeries sys = yearlyEnergySeries { sys with energySources := l1 ++ l2 } ∧
      calculateCarbonReduction sys (calculateEnergyGeneration sys) =
        calculateCarbonReduction { sys with energySources := l1 ++ l2 }
          (calculateEnergyGeneration { sys with energySources := l1 ++ l2 }) := by
  have key : sys.energySources.filter (fun s => s.enabled) =
      (l1 ++ l2).filter (fun s => s.enabled) := by
    simp [hsrc, List.filter_append, List.filter_cons, hs]
  have h1 : calculateEnergyGeneration sys =
      calculateEnergyGeneration { sys with energySources := l1 ++ l2 } := by
    simp [calculateEnergyGeneration, enabledAnnualProduction, key]
  refine ⟨h1, ?_, ?_⟩
  · simp [yearlyEnergySeries, enabledAnnualProduction, key]
  · rw [h1]
    simp [calculateCarbonReduction]

/-- A system containing the enabled example source followed by the disabled
source with large nonzero fields. -/
def exSysWithDisabled : SystemParameters :=
  { energySources := [exSource, disabledSource], gridEmissionFactor := 1,
    operationalLifetime := 2, totalInstallationCost := 100, totalOperationalCosts := 10 }

/-- Witness for claim C7: dropping the disabled source from the concrete
two-source system changes none of the outputs. -/
theorem C7_witness :
    calculateEnergyGeneration exSysWithDisabled =
        calculateEnergyGeneration
          { exSysWithDisabled with energySources := [exSource] ++ [] } ∧
      yearlyEnergySeries exSysWithDisabled =
        yearlyEnergySeries { exSysWithDisabled with energySources := [exSource] ++ [] } ∧
      calculateCarbonReduction exSysWithDisabled (calculateEnergyGeneration exSysWithDisabled) =
        calculateCarbonReduction { exSysWithDisabled with energySources := [exSource] ++ [] }
          (calculateEnergyGeneration
            { exSysWithDisabled with energySources := [exSource] ++ [] }) :=
  C7_disabled_source_exclusion exSysWithDisabled [exSource] [] disabledSource rfl rfl

/-- A forward configuration holding the reverse solver's output: a single
enabled source with the computed capacity and the assumed daily production
hours. -/
def roundTripSource (size hours : ℚ) : EnergySourceConfig :=
  { enabled := true, capacity := size, efficiency := 20, costPerKw := 0,
    dailyProductionHours := hours, degradationRate := 0, specificOperationalCosts := 0 }

/-- The system configuration built around the reverse solver's output. -/
def roundTripSystem (size hours emission : ℚ) : SystemParameters :=
  { energySources := [roundTripSource size hours]
    gridEmissionFactor := emission
    operationalLifetime := 1
    totalInstallationCost := 0
    totalOperationalCosts := 0 }

/-- Claim C9: on mutually consistent targets the four inverted estimates of
calculateSystemParameters all equal the true size S, so their average is
exactly S, and running the energy and carbon models forward on a system of
size S reproduces every target metric exactly. -/
theorem C9_goal_solver_roundtrip (S h g : ℚ) (hh : 0 < h) (hg : 0 < g) :
    (calculateSystemParameters (S * h) (S * h * 30) (S * h * 365) (S * h * 365 * g) g
        h).calculatedSystemSize = S ∧
      (calculateSystemParameters (S * h) (S * h * 30) (S * h * 365) (S * h * 365 * g) g
        h).calculatedCapacity = S ∧
      (calculateEnergyGeneration (roundTripSystem S h g)).daily = S * h ∧
      (calculateEnergyGeneration (roundTripSystem S h g)).monthly = S * h * 30 ∧
      (calculateEnergyGeneration (roundTripSystem S h g)).yearly = S * h * 365 ∧
      (calculateCarbonReduction (roundTripSystem S h g)
        (calculateEnergyGeneration (roundTripSystem S h g))).yearly = S * h * 365 * g := by
  have hh' : h ≠ 0 := hh.ne'
  have hg' : g ≠ 0 := hg.ne'
  have hsize : (calculateSystemParameters (S * h) (S * h * 30) (S * h * 365)
      (S * h * 365 * g) g h).calculatedSystemSize = S := by
    simp only [calculateSystemParameters]
    field_simp
    ring
  have hdaily : (calculateEnergyGeneration (roundTripSystem S h g)).daily = S * h := by
    simp [calculateEnergyGeneration, roundTripSystem, roundTripSource]
  refine ⟨hsize, hsize, hdaily, ?_, ?_, ?_⟩
  · simp [calculateEnergyGeneration, roundTripSystem, roundTripSource]
  · simp [calculateEnergyGeneration, roundTripSystem, roundTripSource]
  · simp [calculateCarbonReduction, calculateEnergyGeneration, roundTripSystem, roundTripSource]

/-- Witness for claim C9 at size 10, five production hours and emission
factor 2. -/
theorem C9_witness :
    (calculateSystemParameters (10 * 5) (10 * 5 * 30) (10 * 5 * 365) (10 * 5 * 365 * 2) 2
        5).calculatedSystemSize = 10 ∧
      (calculateSystemParameters (10 * 5) (10 * 5 * 30) (10 * 5 * 365) (10 * 5 * 365 * 2) 2
        5).calculatedCapacity = 10 ∧
      (calculateEnergyGeneration (roundTripSystem 10 5 2)).daily = 10 * 5 ∧
      (calculateEnergyGeneration (roundTripSystem 10 5 2)).monthly = 10 * 5 * 30 ∧
      (calculateEnergyGeneration (roundTripSystem 10 5 2)).yearly = 10 * 5 * 365 ∧
      (calculateCarbonReduction (roundTripSystem 10 5 2)
        (calculateEnergyGeneration (roundTripSystem 10 5 2))).yearly = 10 * 5 * 365 * 2 :=
  C9_goal_solver_roundtrip 10 5 2 (by norm_num) (by norm_num)

end WindSolar
